import Mathlib

/-!
Verification of the cost-projection pipeline and CLI utilities of
`message-ix-models` against its natural-language specification.

The relevant Python sources are shallowly embedded:

- `tools/costs/gdp.py` — SSP GDP processing, GDP-ratio computation and the
  per-group two-point linear regression of cost ratio against GDP ratio;
- `tools/costs/regional_differentiation.py` — WEO / Intratec / no-source
  regional cost differentiation and missing-value imputation;
- `tools/costs/splines.py` — converging investment-cost series;
- `util/click.py` — the `urls_from_file` callback.

Pandas data frames are embedded as lists of structures (one structure per
row schema); joins (`pd.merge`) become list comprehensions pairing rows on
the join keys; `np.where` becomes `if`; missing values (`NaN`) become
`Option`; Python `raise` becomes `Except.error`; a function that can fall
off the end without `return` (returning `None`) yields `Option`.
Costs and indices are embedded as rationals.

The file is organised as: all definitions first, then all theorems.

Field and binder names ending in a reserved suffix carry a trailing
apostrophe (for example `scenario'` for the Python column `scenario` and
`reg_cost_ratio'` for `reg_cost_ratio`).
-/

/-! # Definitions -/

/-! ## Basic helpers shared by several embeddings -/

/-- Comparison of characters by code point, used to embed Python string
comparison for `sort_values`. -/
def chLt (a b : Char) : Bool := a.toNat < b.toNat

/-- Lexicographic comparison of character lists (Python string `<`). -/
def chListLt : List Char → List Char → Bool
  | [], [] => false
  | [], _ :: _ => true
  | _ :: _, [] => false
  | a :: as, b :: bs => if chLt a b then true else if chLt b a then false else chListLt as bs

/-- String comparison (Python `str <`), by code points. -/
def strLt (a b : String) : Bool := chListLt a.data b.data

/-- Embedding of Python `str.upper()` (sufficient for the ASCII region codes
appearing in the data). -/
def str_upper (s : String) : String := String.mk (s.data.map Char.toUpper)

/-- Embedding of Python's binary `min` on integers. -/
def minI (a b : Int) : Int := if a ≤ b then a else b

/-- Embedding of Python `min(collection)` on integers: `none` on an empty
collection (where Python raises `ValueError`). -/
def listMin : List Int → Option Int
  | [] => none
  | x :: xs => some (xs.foldl minI x)

/-- Insertion of an element into a list sorted by `le`. -/
def insertSorted (le : α → α → Bool) (x : α) : List α → List α
  | [] => [x]
  | y :: ys => if le x y then x :: y :: ys else y :: insertSorted le x ys

/-- Sorting by `le` (embedding of `DataFrame.sort_values` and of the sorting
done by `median`). -/
def sortBy (le : α → α → Bool) (l : List α) : List α :=
  l.foldr (insertSorted le) []

/-- Boolean order on rationals. -/
def qLe (a b : ℚ) : Bool := a ≤ b

/-! ## Two-point regression (`gdp.py`, `indiv_regress_tech_cost_ratio_vs_gdp_ratio`)

Embedding of `scipy.stats.linregress` (slope and intercept only; `rvalue`,
`pvalue` and `stderr` are dropped by the caller) and of the construction of
the per-group point set: the group's rows with both coordinates set to 1
(`assign(gdp_ratio_reg_to_reference=1, reg_cost_ratio=1)`) followed by the
original rows (`._append(df)`). -/

/-- Arithmetic mean of a list of rationals. -/
def mean (l : List ℚ) : ℚ := l.sum / l.length

/-- Slope and intercept of an ordinary least-squares line, as computed by
`scipy.stats.linregress`. -/
def linregress (pts : List (ℚ × ℚ)) : ℚ × ℚ :=
  let xb := mean (pts.map (fun p => p.1))
  let yb := mean (pts.map (fun p => p.2))
  let sxx := (pts.map (fun p => (p.1 - xb) ^ 2)).sum
  let sxy := (pts.map (fun p => (p.1 - xb) * (p.2 - yb))).sum
  (sxy / sxx, yb - (sxy / sxx) * xb)

/-- Point set built by the non-reference branch of
`indiv_regress_tech_cost_ratio_vs_gdp_ratio`: identity rows followed by the
observed rows. Each point is `(gdp_ratio_reg_to_reference, reg_cost_ratio)`. -/
def regress_point_set (grp : List (ℚ × ℚ)) : List (ℚ × ℚ) :=
  grp.map (fun _ => ((1 : ℚ), (1 : ℚ))) ++ grp

/-- Per-group regression of the non-reference branch: fit `linregress` on the
identity point(s) plus the group's observed point(s). -/
def indiv_regress_group (grp : List (ℚ × ℚ)) : ℚ × ℚ :=
  linregress (regress_point_set grp)

/-! ## Base-year selection (`gdp.py`, `calculate_indiv_adjusted_region_cost_ratios`)

Embedding of the step at the top of the function: "If base year does not
exist in GDP data, then use earliest year in GDP data and give warning".
The boolean records whether the warning was printed; `none` models the
`ValueError` Python's `min` would raise on an empty year list. -/

/-- Base-year selection from the available GDP years. -/
def select_base_year (years : List Int) ( base_year : Int) : Option (Int × Bool) :=
  if base_year ∈ years then some (base_year, false)
  else (listMin years).map (fun m => (m, true))

/-! ## WEO missing-value imputation (`regional_differentiation.py`, `get_weo_data`)

Rows of `all_cost_df` after melting: technology, region, year, cost type and
an optional value (`none` embeds an `"n.a."` cell, i.e. `NaN`). The code
computes `df_median` by a group-by on (technology, cost type) with the
`median` aggregation (which, as in pandas, ignores missing values), merges it
back on the same keys, and substitutes the median exactly where the value is
missing. -/

structure CostRow where
  weo_technology : String
  weo_region : String
  year : String
  cost_type : String
  value : Option ℚ
deriving DecidableEq

/-- Median of a list of rationals, as `pandas`/`numpy` compute it: middle
element of the sorted list for odd length, arithmetic mean of the two middle
elements for even length. -/
def median (l : List ℚ) : ℚ :=
  let s := sortBy qLe l
  let n := s.length
  if n % 2 = 1 then s.getD (n / 2) 0
  else (s.getD (n / 2 - 1) 0 + s.getD (n / 2) 0) / 2

/-- Median of the present values; `none` when every value is missing (the
pandas median of an all-NaN group is NaN). -/
def medianOpt (l : List ℚ) : Option ℚ :=
  if l = [] then none else some (median l)

/-- Group keys of `all_cost_df.groupby(["weo_technology", "cost_type"])`. -/
def groupKeys (rows : List CostRow) : List (String × String) :=
  (rows.map (fun r => (r.weo_technology, r.cost_type))).dedup

/-- Embedding of `df_median`: one row per (technology, cost type) group with
the median of the group's non-missing values. -/
def df_median (rows : List CostRow) : List ((String × String) × Option ℚ) :=
  (groupKeys rows).map (fun k =>
    (k, medianOpt ((rows.filter
      (fun r => r.weo_technology = k.1 ∧ r.cost_type = k.2)).filterMap (fun r => r.value))))

/-- Key lookup in an association list, used to embed the left-merge of
`all_cost_df` with `df_median` on the group keys. -/
def lookupKey {α : Type} [DecidableEq α] {β : Type} (k : α) : List (α × β) → Option β
  | [] => none
  | (a, v) :: rest => if a = k then some v else lookupKey k rest

/-- Embedding of the merge/substitution step of `get_weo_data`: left-merge
`all_cost_df` with `df_median` on (technology, cost type), then
`np.where(value.isnull(), median_value, value)`. -/
def get_weo_data_imputed (rows : List CostRow) : List CostRow :=
  rows.map (fun r =>
    let med := (lookupKey (r.weo_technology, r.cost_type) (df_median rows)).join
    { r with value := if r.value.isSome then r.value else med })

/-- Imputation rule in the specification's words: a missing value is replaced
by the median computed only over the non-missing values within the same
(technology, cost type) group; a non-missing value is left unchanged. -/
def spec_imputed_value (rows : List CostRow) (r : CostRow) : Option ℚ :=
  match r.value with
  | some v => some v
  | none => medianOpt ((rows.filter
      (fun s => s.weo_technology = r.weo_technology ∧
        s.cost_type = r.cost_type)).filterMap (fun s => s.value))

/-! ## Scenario-URL file parsing (`util/click.py`, `urls_from_file`)

The callback reads the file line by line and parses each line with
`ScenarioInfo.from_url`; the parsed list is stored on the context and
returned. File content is embedded as a list of characters. -/

/-- Split a character list at the first occurrence of `c`; `none` when `c`
does not occur. The separator itself is dropped. -/
def splitAtFirst (c : Char) : List Char → Option (List Char × List Char)
  | [] => none
  | x :: xs =>
    if x = c then some ([], xs)
    else (splitAtFirst c xs).map (fun p => (x :: p.1, p.2))

/-- Decomposition of file content into lines, as Python's line iteration
produces them (with the terminating newline removed from each line; a final
line without a trailing newline is also yielded). -/
def fileLines : List Char → List (List Char)
  | [] => []
  | c :: cs =>
    if c = '\n' then [] :: fileLines cs
    else
      match fileLines cs with
      | [] => [[c]]
      | l :: ls => (c :: l) :: ls

/-- Structured scenario record parsed from one URL line. -/
structure ScenarioInfo where
  model : List Char
  scenario' : List Char
  version : List Char
deriving DecidableEq

/-- Modelled from the spec: `ScenarioInfo.from_url` lives in
`message_ix_models/util/scenarioinfo.py`, which is not among the analysed
sources; the spec fixes the identifier syntax `<model>/<scenario>#<version>`,
one per line. The model name extends to the first `/`, the scenario name to
the following first `#`, and the version is the rest of the line. A line
with no `/` or no `#` yields `none` (Python raises a parse error). -/
def ScenarioInfo.from_url (line : List Char) : Option ScenarioInfo :=
  match splitAtFirst '/' line with
  | none => none
  | some (m, rest) =>
    match splitAtFirst '#' rest with
    | none => none
    | some (s, v) => some ⟨m, s, v⟩

/-- Modelled from the spec: re-serialisation of a parsed scenario record back
to its URL `<model>/<scenario>#<version>`. -/
def ScenarioInfo.url (s : ScenarioInfo) : List Char :=
  s.model ++ ('/' :: (s.scenario' ++ ('#' :: s.version)))

/-- Loop body of `urls_from_file`: parse every line, propagating a parse
failure of any line (Python: the exception aborts the command). -/
def parseLines : List (List Char) → Option (List ScenarioInfo)
  | [] => some []
  | line :: rest =>
    match ScenarioInfo.from_url line, parseLines rest with
    | some s, some l => some (s :: l)
    | _, _ => none

/-- Embedding of the `urls_from_file` callback: split the file content into
lines and parse each line into a `ScenarioInfo`. -/
def urls_from_file (content : List Char) : Option (List ScenarioInfo) :=
  parseLines (fileLines content)

/-- Serialisation of a parsed scenario list back to file content: one URL per
line, each line terminated by a newline. -/
def serialize_urls (l : List ScenarioInfo) : List Char :=
  (l.map (fun s => ScenarioInfo.url s ++ ['\n'])).flatten

/-- Well-formedness of a scenario record, under which its URL line is
unambiguous: no `/` in the model name, no `#` in the scenario name, and no
newline anywhere. -/
def wfScenario (s : ScenarioInfo) : Prop :=
  '/' ∉ s.model ∧ '#' ∉ s.scenario' ∧
    '\n' ∉ s.model ∧ '\n' ∉ s.scenario' ∧ '\n' ∉ s.version

instance (s : ScenarioInfo) : Decidable (wfScenario s) := by
  unfold wfScenario
  infer_instance

/-! ## Regional differentiation (`regional_differentiation.py`)

`get_weo_regional_differentiation` builds `df_sel_weo` (WEO data mapped to
MESSAGE regions and restricted to the base year) from data files; the
embedding takes that table as input and covers the remainder of the function:
the reference-region check (lines 451–459), the regional investment-cost
ratio (lines 461–479), the fixed-O&M-to-investment ratio (lines 481–502) and
the final merge (line 505). `get_intratec_regional_differentiation` similarly
takes the mapped table `df_intratec_map` as input and covers the check
(lines 555–562) and the ratio computation (lines 564–582). -/

structure SelWeoRow where
  cost_type : String
  weo_technology : String
  weo_region : String
  region : String
  year : String
  weo_cost : ℚ
deriving DecidableEq

structure WeoRatioRow where
  weo_technology : String
  region : String
  weo_ref_region_cost : ℚ
  reg_cost_ratio' : ℚ
  weo_fix_ratio' : ℚ
deriving DecidableEq

/-- Embedding of `get_weo_regional_differentiation` from `df_sel_weo` on:
check that the (upper-cased) reference region occurs in the data, else raise
`ValueError`; merge the reference-region investment rows with all investment
rows on (technology, year) and divide to get `reg_cost_ratio`; merge
base-year investment and fixed-O&M rows on (technology, WEO region, region)
and divide to get the fix-to-investment ratio; merge both on
(technology, region). -/
def get_weo_regional_differentiation ( ref_region : String)
    (df_sel_weo : List SelWeoRow) : Except String (List WeoRatioRow) :=
  let sel_year := "2021"
  let refR := str_upper ref_region
  if refR ∈ df_sel_weo.map (fun r => r.region) then
    let refRows := df_sel_weo.filter
      (fun r => r.region = refR ∧ r.cost_type = "inv_cost")
    let invRows := df_sel_weo.filter (fun r => r.cost_type = "inv_cost")
    let df_reg_ratios := refRows.flatMap (fun a =>
      (invRows.filter (fun b =>
        b.weo_technology = a.weo_technology ∧ b.year = a.year)).map (fun b => (a, b)))
    let df_inv := df_sel_weo.filter
      (fun r => r.cost_type = "inv_cost" ∧ r.year = sel_year)
    let df_fix := df_sel_weo.filter
      (fun r => r.cost_type = "fix_cost" ∧ r.year = sel_year)
    let df_fom_inv := df_inv.flatMap (fun i =>
      (df_fix.filter (fun f => f.weo_technology = i.weo_technology ∧
        f.weo_region = i.weo_region ∧ f.region = i.region)).map (fun f => (i, f)))
    Except.ok (df_reg_ratios.flatMap (fun p =>
      (df_fom_inv.filter (fun q =>
        q.1.weo_technology = p.2.weo_technology ∧ q.1.region = p.2.region)).map
        (fun q =>
          { weo_technology := p.2.weo_technology
            region := p.2.region
            weo_ref_region_cost := p.1.weo_cost
            reg_cost_ratio' := p.2.weo_cost / p.1.weo_cost
            weo_fix_ratio' := q.2.weo_cost / q.1.weo_cost })))
  else
    Except.error ("Reference region " ++ refR ++ " not found in WEO data.")

structure IntratecMapRow where
  region : String
  intratec_index : ℚ
  intratec_tech : String
deriving DecidableEq

structure IntratecRatioRow where
  intratec_tech : String
  region : String
  intratec_ref_region_cost : ℚ
  reg_cost_ratio' : ℚ
deriving DecidableEq

/-- Embedding of `get_intratec_regional_differentiation` from
`df_intratec_map` on: check that the (upper-cased) reference region occurs in
the mapped data, else raise `ValueError`; merge the reference-region rows
with all rows on `intratec_tech` and divide the index values to get
`reg_cost_ratio`. -/
def get_intratec_regional_differentiation ( ref_region : String)
    (df_intratec_map : List IntratecMapRow) : Except String (List IntratecRatioRow) :=
  let refR := str_upper ref_region
  if refR ∈ df_intratec_map.map (fun r => r.region) then
    Except.ok ((df_intratec_map.filter (fun r => r.region = refR)).flatMap (fun a =>
      (df_intratec_map.filter (fun b => b.intratec_tech = a.intratec_tech)).map
        (fun b =>
          { intratec_tech := b.intratec_tech
            region := b.region
            intratec_ref_region_cost := a.intratec_index
            reg_cost_ratio' := b.intratec_index / a.intratec_index })))
  else
    Except.error ("Reference region " ++ refR ++ " not found in WEO data.")

/-! ## Converging investment costs (`splines.py`, `project_adjusted_inv_costs`)

The function merges the learning-curve table (`nam_learning_df`) with the
adjusted cost-ratio table on (scenario, WEO technology, year), then with the
investment-cost rows of the regional differentiation table on
(MESSAGE technology, WEO technology, region), and assigns the three candidate
cost series. Years are embedded as integers. -/

/-- First model year (global constant of `splines.py`). -/
def FIRST_MODEL_YEAR : Int := 2020

structure NamRow where
  scenario' : String
  message_technology : String
  weo_technology : String
  year : Int
  inv_cost_learning_NAM : ℚ
deriving DecidableEq

structure AdjRatioRow where
  scenario_version : String
  scenario' : String
  weo_technology : String
  region : String
  year : Int
  cost_ratio_adj : ℚ
deriving DecidableEq

structure RegDiffRow where
  cost_type : String
  message_technology : String
  weo_technology : String
  weo_region : String
  region : String
  cost_region_2021 : ℚ
  cost_ratio' : ℚ
  cost_NAM_adjusted : ℚ
deriving DecidableEq

structure ProjCostRow where
  scenario_version : String
  scenario' : String
  message_technology : String
  weo_technology : String
  region : String
  year : Int
  inv_cost_learning_only : ℚ
  inv_cost_gdp_adj : ℚ
  inv_cost_converge : ℚ
deriving DecidableEq

/-- Embedding of `project_adjusted_inv_costs`: the two merges followed by the
`assign` of the three candidate series (`np.where` on `year` against the first
model year and the convergence year). The Python default of
`convergence_year_flag` is 2050. -/
def project_adjusted_inv_costs (nam_learning_df : List NamRow)
    (adj_cost_ratios_df : List AdjRatioRow) (reg_diff_df : List RegDiffRow)
    (convergence_year_flag : Int) : List ProjCostRow :=
  nam_learning_df.flatMap (fun n =>
    (adj_cost_ratios_df.filter (fun a => a.scenario' = n.scenario' ∧
      a.weo_technology = n.weo_technology ∧ a.year = n.year)).flatMap (fun a =>
      ((reg_diff_df.filter (fun d => d.cost_type = "inv_cost")).filter (fun d =>
        d.message_technology = n.message_technology ∧
        d.weo_technology = n.weo_technology ∧ d.region = a.region)).map (fun d =>
        { scenario_version := a.scenario_version
          scenario' := n.scenario'
          message_technology := n.message_technology
          weo_technology := n.weo_technology
          region := a.region
          year := n.year
          inv_cost_learning_only :=
            if n.year ≤ FIRST_MODEL_YEAR then d.cost_region_2021
            else n.inv_cost_learning_NAM * d.cost_ratio'
          inv_cost_gdp_adj :=
            if n.year ≤ FIRST_MODEL_YEAR then d.cost_region_2021
            else n.inv_cost_learning_NAM * a.cost_ratio_adj
          inv_cost_converge :=
            if n.year ≤ FIRST_MODEL_YEAR then d.cost_region_2021
            else if n.year < convergence_year_flag then
              n.inv_cost_learning_NAM * d.cost_ratio'
            else n.inv_cost_learning_NAM })))

/-! ## SSP GDP processing (`gdp.py`, `process_raw_ssp_data`)

The Python function reads the node file and the SSP CSV; the embedding takes
as input the country-level population/GDP rows already matched to regions
(file parsing and the `nomenclature` country lookup are I/O, out of scope)
and covers the rest: the node validity check (print only), the default
reference region, the group-by aggregation to (scenario_version, scenario,
region, year) with GDP per capita, the reference-region check (print, then
falling off the function without `return`), the ratio merge, the LED scenario
copy and the final sort. The first component collects printed messages;
`Except.error` embeds the `AttributeError` raised when an invalid node leaves
the default reference region `None`; `Except.ok none` embeds returning
`None`. -/

structure SspRow where
  scenario_version : String
  scenario' : String
  region : String
  country_alpha_3 : String
  year : Int
  gdp_ppp : ℚ
  pop : ℚ
deriving DecidableEq

structure GdpAggRow where
  scenario_version : String
  scenario' : String
  region : String
  year : Int
  total_gdp : ℚ
  total_population : ℚ
  gdp_ppp_per_capita : ℚ
deriving DecidableEq

structure GdpRatioRow where
  scenario_version : String
  scenario' : String
  region : String
  year : Int
  gdp_ppp_per_capita : ℚ
  gdp_ratio_reg_to_reference : ℚ
deriving DecidableEq

/-- Aggregation step: group by (scenario_version, scenario, region, year),
sum GDP and population over the group, and compute GDP per capita. -/
def aggregate_ssp (rows : List SspRow) : List GdpAggRow :=
  let keys := (rows.map (fun r =>
    (r.scenario_version, r.scenario', r.region, r.year))).dedup
  keys.map (fun k =>
    let grp := rows.filter (fun r => r.scenario_version = k.1 ∧
      r.scenario' = k.2.1 ∧ r.region = k.2.2.1 ∧ r.year = k.2.2.2)
    let tg := (grp.map (fun r => r.gdp_ppp)).sum
    let tp := (grp.map (fun r => r.pop)).sum
    ⟨k.1, k.2.1, k.2.2.1, k.2.2.2, tg, tp, tg / tp⟩)

/-- Row order of the final `sort_values(by=["scenario", "scenario_version",
"region", "year"])`. -/
def gdpRowLe (a b : GdpRatioRow) : Bool :=
  if a.scenario' ≠ b.scenario' then strLt a.scenario' b.scenario'
  else if a.scenario_version ≠ b.scenario_version then
    strLt a.scenario_version b.scenario_version
  else if a.region ≠ b.region then strLt a.region b.region
  else decide (a.year ≤ b.year)

/-- Message printed when the node selection is invalid. -/
def invalid_node_msg : String := "Please select a valid region: R11, R12, or R20"

/-- Message printed when the reference region is missing from the data. -/
def invalid_ref_msg : String := "Please select a valid reference region"

/-- Embedding of `process_raw_ssp_data`. -/
def process_raw_ssp_data (input_node : String) (input_ref_region : Option String)
    (rows : List SspRow) : List String × Except String (Option (List GdpRatioRow)) :=
  let node_up := str_upper input_node
  let warns := if node_up ∈ (["R11", "R12", "R20"] : List String) then []
    else [invalid_node_msg]
  let ref? : Option String :=
    match input_ref_region with
    | some r => some r
    | none =>
      if str_upper input_node = "R11" then some "R11_NAM"
      else if str_upper input_node = "R12" then some "R12_NAM"
      else if str_upper input_node = "R20" then some "R20_NAM"
      else none
  match ref? with
  | none =>
    (warns, Except.error "AttributeError: NoneType object has no upper method")
  | some ref =>
    let df := aggregate_ssp rows
    let reference_region := str_upper ref
    if reference_region ∈ df.map (fun r => r.region) then
      let ratios := df.flatMap (fun r =>
        ((df.filter (fun t => t.region = reference_region)).filter (fun t =>
          t.scenario_version = r.scenario_version ∧ t.scenario' = r.scenario' ∧
          t.year = r.year)).map (fun t =>
          (⟨r.scenario_version, r.scenario', r.region, r.year,
            r.gdp_ppp_per_capita,
            r.gdp_ppp_per_capita / t.gdp_ppp_per_capita⟩ : GdpRatioRow)))
      let df_led := (ratios.filter (fun r => r.scenario' = "SSP2")).map
        (fun r => { r with scenario' := "LED" })
      (warns, Except.ok (some (sortBy gdpRowLe (ratios ++ df_led))))
    else
      (warns ++ [invalid_ref_msg], Except.ok none)

/-! ## No-source regional differentiation
(`regional_differentiation.py`, `apply_regional_differentiation`)

The `filt_none` branch: technologies whose `reg_diff_source` is null are
crossed with `un_reg`, the unique regions of the Intratec branch output
`filt_intratec`, with `reg_cost_ratio = 1` everywhere and a null `fix_ratio`
defaulted to 0. A left merge whose right side is empty keeps the left rows
with nulls, hence the `Option`-valued `region` column and the empty-match
branches. -/

structure TechMapRow where
  message_technology : String
  reg_diff_source : Option String
  reg_diff_technology : Option String
  base_year_reference_region_cost : Option ℚ
  fix_ratio' : Option ℚ
deriving DecidableEq

structure RegDiffOutRow where
  message_technology : String
  reg_diff_source : Option String
  reg_diff_technology : Option String
  region : Option String
  base_year_reference_region_cost : Option ℚ
  reg_cost_ratio' : Option ℚ
  fix_ratio' : Option ℚ
deriving DecidableEq

/-- Embedding of `filt_intratec`: technologies mapped to Intratec,
left-merged with the Intratec differentiation table on the technology key;
a null base-year cost is replaced by the Intratec reference cost and a null
`fix_ratio` by 0. -/
def filt_intratec (df_map : List TechMapRow)
    (df_intratec : List IntratecRatioRow) : List RegDiffOutRow :=
  (df_map.filter (fun m => m.reg_diff_source = some "intratec")).flatMap (fun m =>
    let ms := df_intratec.filter
      (fun d => some d.intratec_tech = m.reg_diff_technology)
    if ms.isEmpty then
      [⟨m.message_technology, m.reg_diff_source, m.reg_diff_technology, none,
        m.base_year_reference_region_cost, none, some (m.fix_ratio'.getD 0)⟩]
    else ms.map (fun d =>
      ⟨m.message_technology, m.reg_diff_source, m.reg_diff_technology,
        some d.region,
        some (m.base_year_reference_region_cost.getD d.intratec_ref_region_cost),
        some d.reg_cost_ratio', some (m.fix_ratio'.getD 0)⟩))

/-- Embedding of `un_reg`: the unique regions of the Intratec branch output
(`filt_intratec.region.unique()`). -/
def un_reg (df_map : List TechMapRow)
    (df_intratec : List IntratecRatioRow) : List (Option String) :=
  ((filt_intratec df_map df_intratec).map (fun r => r.region)).dedup

/-- Embedding of `filt_none`: technologies with no differentiation source,
crossed (merge on the constant key "z") with the region list, ratio 1
everywhere and null `fix_ratio` defaulted to 0. -/
def filt_none (df_map : List TechMapRow)
    (regions : List (Option String)) : List RegDiffOutRow :=
  (df_map.filter (fun m => m.reg_diff_source = none)).flatMap (fun m =>
    if regions.isEmpty then
      [⟨m.message_technology, m.reg_diff_source, m.reg_diff_technology, none,
        m.base_year_reference_region_cost, none, some (m.fix_ratio'.getD 0)⟩]
    else regions.map (fun reg =>
      ⟨m.message_technology, m.reg_diff_source, m.reg_diff_technology, reg,
        m.base_year_reference_region_cost, some 1, some (m.fix_ratio'.getD 0)⟩))

/-- No-source branch of `apply_regional_differentiation`: `filt_none` applied
to the unique regions of the Intratec branch output. -/
def apply_regional_differentiation_none (df_map : List TechMapRow)
    (df_intratec : List IntratecRatioRow) : List RegDiffOutRow :=
  filt_none df_map (un_reg df_map df_intratec)

/-! # Theorems -/

/-! ## Helper lemmas -/

theorem foldl_minI_le (xs : List Int) : ∀ a : Int, xs.foldl minI a ≤ a ∧
    ∀ y ∈ xs, xs.foldl minI a ≤ y := by
  induction xs with
  | nil => intro a; exact ⟨le_refl a, by simp⟩
  | cons x xs ih =>
    intro a
    have h := ih (minI a x)
    have hax : minI a x ≤ a ∧ minI a x ≤ x := by
      unfold minI; split <;> constructor <;> omega
    refine ⟨le_trans (List.foldl_cons _ _ ▸ h.1) hax.1, ?_⟩
    intro y hy
    rcases List.mem_cons.mp hy with rfl | hy'
    · exact le_trans h.1 hax.2
    · exact h.2 y hy'

theorem foldl_minI_mem (xs : List Int) : ∀ a : Int,
    xs.foldl minI a = a ∨ xs.foldl minI a ∈ xs := by
  induction xs with
  | nil => intro a; left; rfl
  | cons x xs ih =>
    intro a
    rcases ih (minI a x) with h | h
    · by_cases hax : a ≤ x
      · left; rw [List.foldl_cons, h]; unfold minI; simp [hax]
      · right; rw [List.foldl_cons, h]; unfold minI; simp [hax]
    · right; exact List.mem_cons_of_mem _ h

theorem listMin_spec (l : List Int) (m : Int) (h : listMin l = some m) :
    m ∈ l ∧ ∀ y ∈ l, m ≤ y := by
  cases l with
  | nil => simp [listMin] at h
  | cons x xs =>
    simp only [listMin, Option.some.injEq] at h
    subst h
    constructor
    · rcases foldl_minI_mem xs x with h | h
      · rw [h]; exact List.mem_cons_self x xs
      · exact List.mem_cons_of_mem _ h
    · intro y hy
      rcases List.mem_cons.mp hy with rfl | hy'
      · exact (foldl_minI_le xs y).1
      · exact (foldl_minI_le xs x).2 y hy'

theorem lookup_table {α β : Type} [DecidableEq α] (f : α → β) (keys : List α) (k : α)
    (hk : k ∈ keys) (hnd : keys.Nodup) :
    lookupKey k (keys.map (fun a => (a, f a))) = some (f k) := by
  induction keys with
  | nil => simp at hk
  | cons a as ih =>
    rcases List.mem_cons.mp hk with rfl | hk'
    · simp [lookupKey]
    · have hne : a ≠ k := by
        rintro rfl
        exact (List.nodup_cons.mp hnd).1 hk'
      simp only [List.map_cons, lookupKey, if_neg hne]
      exact ih hk' (List.nodup_cons.mp hnd).2

theorem linregress_two (x1 y1 x2 y2 : ℚ) (h : x2 - x1 ≠ 0) :
    linregress [(x1, y1), (x2, y2)] =
      ((y2 - y1) / (x2 - x1), y1 - (y2 - y1) / (x2 - x1) * x1) := by
  simp only [linregress, mean, List.map_cons, List.map_nil, List.sum_cons, List.sum_nil,
    List.length_cons, List.length_nil]
  norm_num
  have hD : (x1 - (x1 + x2) / 2) ^ 2 + (x2 - (x1 + x2) / 2) ^ 2 = (x2 - x1) ^ 2 / 2 := by
    ring
  have hN : (x1 - (x1 + x2) / 2) * (y1 - (y1 + y2) / 2) +
      (x2 - (x1 + x2) / 2) * (y2 - (y1 + y2) / 2) = (x2 - x1) * (y2 - y1) / 2 := by
    ring
  rw [hN, hD]
  constructor
  · field_simp
    ring
  · field_simp
    ring

/-! ## Claim C2 -/

/-- Claim C2: for a non-reference (scenario, technology, region) group whose
single observed base-year pair is `(g, r)` with `g ≠ 1`, the regression is fit
through exactly the two points `(1, 1)` and `(g, r)`, and its slope and
intercept satisfy both points with zero residual:
`intercept + slope * 1 = 1` and `intercept + slope * g = r`. -/
theorem c2_two_point_regression_exact (g r : ℚ) (hg : g ≠ 1) :
    regress_point_set [(g, r)] = [(1, 1), (g, r)] ∧
    (indiv_regress_group [(g, r)]).2 + (indiv_regress_group [(g, r)]).1 * 1 = 1 ∧
    (indiv_regress_group [(g, r)]).2 + (indiv_regress_group [(g, r)]).1 * g = r := by
  have h1 : g - 1 ≠ 0 := sub_ne_zero.mpr hg
  refine ⟨rfl, ?_, ?_⟩ <;>
    simp only [indiv_regress_group, regress_point_set, List.map_cons, List.map_nil,
      List.nil_append, List.cons_append, linregress_two 1 1 g r h1]
  · field_simp
  · field_simp
    ring

/-- Witness for claim C2 at the concrete group `(g, r) = (3, 5)`. -/
theorem c2_two_point_regression_exact_witness :
    ((3 : ℚ) ≠ 1) ∧
    regress_point_set [((3 : ℚ), (5 : ℚ))] = [(1, 1), (3, 5)] ∧
    (indiv_regress_group [((3 : ℚ), 5)]).2 + (indiv_regress_group [((3 : ℚ), 5)]).1 * 1 = 1 ∧
    (indiv_regress_group [((3 : ℚ), 5)]).2 + (indiv_regress_group [((3 : ℚ), 5)]).1 * 3 = 5 :=
  ⟨by norm_num, c2_two_point_regression_exact 3 5 (by norm_num)⟩

/-! ## Claim C9 -/

/-- Claim C9: if the configured base year is present in the GDP series' years
it is used unchanged (no warning); if it is absent, the computation does not
fail: it selects the earliest available year and surfaces a warning. -/
theorem c9_base_year_fallback (years : List Int) (b : Int) (hne : years ≠ []) :
    (b ∈ years → select_base_year years b = some (b, false)) ∧
    (b ∉ years → ∃ m, select_base_year years b = some (m, true) ∧
      m ∈ years ∧ ∀ y ∈ years, m ≤ y) := by
  constructor
  · intro hb
    simp [select_base_year, hb]
  · intro hb
    cases hm : listMin years with
    | none =>
      cases years with
      | nil => exact absurd rfl hne
      | cons x xs => simp [listMin] at hm
    | some m =>
      refine ⟨m, ?_, listMin_spec years m hm⟩
      simp [select_base_year, hb, hm]

/-- Witness for claim C9: base year 1990 is absent from the GDP years
`[2025, 2020, 2030]`, so the earliest year 2020 is selected with a warning. -/
theorem c9_base_year_fallback_witness :
    ([2025, 2020, 2030] ≠ ([] : List Int)) ∧ ((1990 : Int) ∉ [(2025 : Int), 2020, 2030]) ∧
    ∃ m, select_base_year [2025, 2020, 2030] 1990 = some (m, true) ∧
      m ∈ [(2025 : Int), 2020, 2030] ∧ ∀ y ∈ [(2025 : Int), 2020, 2030], m ≤ y :=
  ⟨by decide, by decide,
    (c9_base_year_fallback [2025, 2020, 2030] 1990 (by decide)).2 (by decide)⟩

/-! ## Claim C4 -/

/-- Claim C4: the imputation performed by `get_weo_data` replaces exactly the
missing values, each by the median over the non-missing values within the same
(technology, cost type) group, and leaves every non-missing value unchanged —
the output agrees row-by-row with the specification's imputation rule
(`spec_imputed_value`), which is the sole transformation applied. -/
theorem c4_median_imputation_rule (rows : List CostRow) :
    get_weo_data_imputed rows =
      rows.map (fun r => { r with value := spec_imputed_value rows r }) := by
  unfold get_weo_data_imputed
  apply List.map_congr_left
  intro r hr
  have hk : (r.weo_technology, r.cost_type) ∈ groupKeys rows :=
    List.mem_dedup.mpr (List.mem_map.mpr ⟨r, hr, rfl⟩)
  have hl : lookupKey (r.weo_technology, r.cost_type) (df_median rows) =
      some (medianOpt ((rows.filter
        (fun s => s.weo_technology = r.weo_technology ∧
          s.cost_type = r.cost_type)).filterMap (fun s => s.value))) :=
    lookup_table _ (groupKeys rows) _ hk (List.nodup_dedup _)
  cases hv : r.value with
  | some v =>
    simp [spec_imputed_value, hv]
  | none =>
    simp only [spec_imputed_value, hv, Option.isSome_none, Bool.false_eq_true, if_false]
    rw [hl]
    rfl

/-! ## Claim C5 -/

theorem splitAtFirst_append (c : Char) (a b : List Char) (h : c ∉ a) :
    splitAtFirst c (a ++ c :: b) = some (a, b) := by
  induction a with
  | nil => simp [splitAtFirst]
  | cons x xs ih =>
    have hx : ¬(x = c) := fun hh => h (hh ▸ List.mem_cons_self x xs)
    simp only [List.cons_append, splitAtFirst, if_neg hx, List.append_eq]
    rw [ih (fun hm => h (List.mem_cons_of_mem _ hm))]
    rfl

theorem from_url_url (s : ScenarioInfo) (h : wfScenario s) :
    ScenarioInfo.from_url (ScenarioInfo.url s) = some s := by
  obtain ⟨h1, h2, _, _, _⟩ := h
  unfold ScenarioInfo.url ScenarioInfo.from_url
  simp only [splitAtFirst_append '/' s.model _ h1,
    splitAtFirst_append '#' s.scenario' s.version h2]

theorem fileLines_append (a rest : List Char) (h : '\n' ∉ a) :
    fileLines (a ++ '\n' :: rest) = a :: fileLines rest := by
  induction a with
  | nil => simp [fileLines]
  | cons x xs ih =>
    have hx : ¬(x = '\n') := fun hh => h (hh ▸ List.mem_cons_self x xs)
    simp only [List.cons_append, fileLines, if_neg hx, List.append_eq]
    rw [ih (fun hm => h (List.mem_cons_of_mem _ hm))]

theorem parse_serialize (l : List ScenarioInfo) (hwf : ∀ s ∈ l, wfScenario s) :
    urls_from_file (serialize_urls l) = some l := by
  induction l with
  | nil => rfl
  | cons s rest ih =>
    have hs := hwf s (List.mem_cons_self s rest)
    have hnl : '\n' ∉ ScenarioInfo.url s := by
      obtain ⟨_, _, h3, h4, h5⟩ := hs
      unfold ScenarioInfo.url
      intro hm
      rcases List.mem_append.mp hm with hm | hm
      · exact h3 hm
      · rcases List.mem_cons.mp hm with hm | hm
        · exact absurd hm (by decide)
        · rcases List.mem_append.mp hm with hm | hm
          · exact h4 hm
          · rcases List.mem_cons.mp hm with hm | hm
            · exact absurd hm (by decide)
            · exact h5 hm
    have hser : serialize_urls (s :: rest) =
        ScenarioInfo.url s ++ '\n' :: serialize_urls rest := by
      simp only [serialize_urls, List.map_cons, List.flatten_cons, List.append_assoc,
        List.singleton_append]
    unfold urls_from_file
    rw [hser, fileLines_append _ _ hnl]
    have ihr := ih (fun t ht => hwf t (List.mem_cons_of_mem _ ht))
    unfold urls_from_file at ihr
    simp only [parseLines, from_url_url s hs, ihr]

/-- Claim C5: parsing a well-formed scenario-URL file (one
`<model>/<scenario>#<version>` identifier per line) with the `urls_from_file`
callback succeeds, and re-serialising each parsed record back to its URL line
reproduces the original file content byte-for-byte. -/
theorem c5_urls_from_file_round_trip (l : List ScenarioInfo)
    (hwf : ∀ s ∈ l, wfScenario s) :
    ∃ parsed, urls_from_file (serialize_urls l) = some parsed ∧
      serialize_urls parsed = serialize_urls l :=
  ⟨l, parse_serialize l hwf, rfl⟩

/-- Witness for claim C5 on the scenario list of the repository's own test
(`m/s#3`, `foo/bar#5`, `baz/qux#123`). -/
theorem c5_urls_from_file_round_trip_witness :
    (∀ s ∈ ([⟨"m".data, "s".data, "3".data⟩,
        ⟨"foo".data, "bar".data, "5".data⟩,
        ⟨"baz".data, "qux".data, "123".data⟩] : List ScenarioInfo), wfScenario s) ∧
    ∃ parsed, urls_from_file (serialize_urls [⟨"m".data, "s".data, "3".data⟩,
        ⟨"foo".data, "bar".data, "5".data⟩,
        ⟨"baz".data, "qux".data, "123".data⟩]) = some parsed ∧
      serialize_urls parsed = serialize_urls [⟨"m".data, "s".data, "3".data⟩,
        ⟨"foo".data, "bar".data, "5".data⟩,
        ⟨"baz".data, "qux".data, "123".data⟩] :=
  ⟨by decide, c5_urls_from_file_round_trip _ (by decide)⟩

/-! ## Claim C1 -/

/-- Claim C1: for technologies differentiated from an external index (WEO or
Intratec), the regional cost ratio produced by the differentiation engine
equals exactly 1 at the reference region, provided the data carry a unique
cost per (technology, year) at the reference region and that cost is nonzero
(the ratio is the region's cost divided by the reference-region cost,
evaluated at the reference region itself). -/
theorem c1_ref_region_ratio_is_one :
    (∀ ( ref_region : String) (df : List SelWeoRow) (out : List WeoRatioRow),
      get_weo_regional_differentiation ref_region df = Except.ok out →
      (∀ a ∈ df, ∀ b ∈ df, a.region = str_upper ref_region →
        b.region = str_upper ref_region → a.cost_type = "inv_cost" →
        b.cost_type = "inv_cost" → a.weo_technology = b.weo_technology →
        a.year = b.year → a.weo_cost = b.weo_cost) →
      ∀ row ∈ out, row.region = str_upper ref_region →
        row.weo_ref_region_cost ≠ 0 → row.reg_cost_ratio' = 1) ∧
    (∀ ( ref_region : String) (dfm : List IntratecMapRow)
        (out : List IntratecRatioRow),
      get_intratec_regional_differentiation ref_region dfm = Except.ok out →
      (∀ a ∈ dfm, ∀ b ∈ dfm, a.region = str_upper ref_region →
        b.region = str_upper ref_region → a.intratec_tech = b.intratec_tech →
        a.intratec_index = b.intratec_index) →
      ∀ row ∈ out, row.region = str_upper ref_region →
        row.intratec_ref_region_cost ≠ 0 → row.reg_cost_ratio' = 1) := by
  constructor
  · intro ref df out hok huniq row hrow hreg hne
    simp only [get_weo_regional_differentiation] at hok
    by_cases hmem : str_upper ref ∈ df.map (fun r => r.region)
    · rw [if_pos hmem] at hok
      simp only [Except.ok.injEq] at hok
      subst hok
      simp only [List.mem_flatMap, List.mem_map, List.mem_filter,
        decide_eq_true_eq] at hrow
      obtain ⟨p, hp, q, hq, hrw⟩ := hrow
      obtain ⟨a, ⟨haf, hareg, hainv⟩, b, ⟨⟨hbf, hbinv⟩, hbtech, hbyear⟩, hpab⟩ := hp
      subst hpab
      subst hrw
      have hbreg : b.region = str_upper ref := hreg
      have ha0 : a.weo_cost ≠ 0 := hne
      have hcost : a.weo_cost = b.weo_cost :=
        huniq a haf b hbf hareg hbreg hainv hbinv hbtech.symm hbyear.symm
      show b.weo_cost / a.weo_cost = 1
      rw [← hcost, div_self ha0]
    · rw [if_neg hmem] at hok
      simp at hok
  · intro ref dfm out hok huniq row hrow hreg hne
    simp only [get_intratec_regional_differentiation] at hok
    by_cases hmem : str_upper ref ∈ dfm.map (fun r => r.region)
    · rw [if_pos hmem] at hok
      simp only [Except.ok.injEq] at hok
      subst hok
      simp only [List.mem_flatMap, List.mem_map, List.mem_filter,
        decide_eq_true_eq] at hrow
      obtain ⟨a, ⟨haf, hareg⟩, b, ⟨hbf, hbtech⟩, hrw⟩ := hrow
      subst hrw
      have hbreg : b.region = str_upper ref := hreg
      have ha0 : a.intratec_index ≠ 0 := hne
      have hidx : a.intratec_index = b.intratec_index :=
        huniq a haf b hbf hareg hbreg hbtech.symm
      show b.intratec_index / a.intratec_index = 1
      rw [← hidx, div_self ha0]
    · rw [if_neg hmem] at hok
      simp at hok

/-- Witness for claim C1: a two-region WEO table and a two-region Intratec
table, each with the reference region `R11_NAM`; the output row at the
reference region carries ratio 1 in both branches. -/
theorem c1_ref_region_ratio_is_one_witness :
    (get_weo_regional_differentiation "R11_NAM"
        [⟨"inv_cost", "ccgt", "United States", "R11_NAM", "2021", 1000⟩,
         ⟨"inv_cost", "ccgt", "Europe", "R11_WEU", "2021", 1200⟩,
         ⟨"fix_cost", "ccgt", "United States", "R11_NAM", "2021", 25⟩,
         ⟨"fix_cost", "ccgt", "Europe", "R11_WEU", "2021", 30⟩] =
      Except.ok [⟨"ccgt", "R11_NAM", 1000, 1000 / 1000, 25 / 1000⟩,
                 ⟨"ccgt", "R11_WEU", 1000, 1200 / 1000, 30 / 1200⟩] ∧
      (⟨"ccgt", "R11_NAM", 1000, 1000 / 1000, 25 / 1000⟩ :
        WeoRatioRow).reg_cost_ratio' = 1) ∧
    (get_intratec_regional_differentiation "R11_NAM"
        [⟨"R11_NAM", 100, "all"⟩, ⟨"R11_WEU", 110, "all"⟩] =
      Except.ok [⟨"all", "R11_NAM", 100, 100 / 100⟩,
                 ⟨"all", "R11_WEU", 100, 110 / 100⟩] ∧
      (⟨"all", "R11_NAM", 100, 100 / 100⟩ : IntratecRatioRow).reg_cost_ratio' = 1) := by
  constructor
  · refine ⟨rfl, ?_⟩
    exact c1_ref_region_ratio_is_one.1 "R11_NAM"
      [⟨"inv_cost", "ccgt", "United States", "R11_NAM", "2021", 1000⟩,
       ⟨"inv_cost", "ccgt", "Europe", "R11_WEU", "2021", 1200⟩,
       ⟨"fix_cost", "ccgt", "United States", "R11_NAM", "2021", 25⟩,
       ⟨"fix_cost", "ccgt", "Europe", "R11_WEU", "2021", 30⟩]
      [⟨"ccgt", "R11_NAM", 1000, 1000 / 1000, 25 / 1000⟩,
       ⟨"ccgt", "R11_WEU", 1000, 1200 / 1000, 30 / 1200⟩]
      rfl (by decide)
      ⟨"ccgt", "R11_NAM", 1000, 1000 / 1000, 25 / 1000⟩
      (List.mem_cons_self _ _) (by decide) (by decide)
  · refine ⟨rfl, ?_⟩
    exact c1_ref_region_ratio_is_one.2 "R11_NAM"
      [⟨"R11_NAM", 100, "all"⟩, ⟨"R11_WEU", 110, "all"⟩]
      [⟨"all", "R11_NAM", 100, 100 / 100⟩, ⟨"all", "R11_WEU", 100, 110 / 100⟩]
      rfl (by decide)
      ⟨"all", "R11_NAM", 100, 100 / 100⟩
      (List.mem_cons_self _ _) (by decide) (by decide)

/-! ## Claim C7 -/

/-- Claim C7: when the (upper-cased) reference region is absent from the
selected external source's region set, the regional differentiation engine
raises a `ValueError` (embedded as `Except.error`) — no result table is
produced, in the WEO branch and in the Intratec branch alike. -/
theorem c7_missing_ref_region_raises :
    (∀ ( ref_region : String) (df : List SelWeoRow),
      str_upper ref_region ∉ df.map (fun r => r.region) →
      ∃ msg, get_weo_regional_differentiation ref_region df = Except.error msg) ∧
    (∀ ( ref_region : String) (dfm : List IntratecMapRow),
      str_upper ref_region ∉ dfm.map (fun r => r.region) →
      ∃ msg, get_intratec_regional_differentiation ref_region dfm =
        Except.error msg) := by
  constructor
  · intro ref df hmem
    refine ⟨"Reference region " ++ str_upper ref ++ " not found in WEO data.", ?_⟩
    simp only [get_weo_regional_differentiation]
    rw [if_neg hmem]
  · intro ref dfm hmem
    refine ⟨"Reference region " ++ str_upper ref ++ " not found in WEO data.", ?_⟩
    simp only [get_intratec_regional_differentiation]
    rw [if_neg hmem]

/-- Witness for claim C7: reference region `R11_LAM` is absent from both
concrete source tables, so both branches return an error. -/
theorem c7_missing_ref_region_raises_witness :
    (str_upper "R11_LAM" ∉ ([⟨"inv_cost", "ccgt", "United States", "R11_NAM",
        "2021", 1000⟩] : List SelWeoRow).map (fun r => r.region) ∧
      ∃ msg, get_weo_regional_differentiation "R11_LAM"
        [⟨"inv_cost", "ccgt", "United States", "R11_NAM", "2021", 1000⟩] =
          Except.error msg) ∧
    (str_upper "R11_LAM" ∉ ([⟨"R11_NAM", 100, "all"⟩] :
        List IntratecMapRow).map (fun r => r.region) ∧
      ∃ msg, get_intratec_regional_differentiation "R11_LAM"
        [⟨"R11_NAM", 100, "all"⟩] = Except.error msg) :=
  ⟨⟨by decide, c7_missing_ref_region_raises.1 "R11_LAM"
      [⟨"inv_cost", "ccgt", "United States", "R11_NAM", "2021", 1000⟩] (by decide)⟩,
   ⟨by decide, c7_missing_ref_region_raises.2 "R11_LAM"
      [⟨"R11_NAM", 100, "all"⟩] (by decide)⟩⟩

/-! ## Claim C3 -/

/-- Counterexample to claim C3 as stated: with a configured convergence year
of 2020 (not larger than the first model year), the rows of year 2020 satisfy
`year ≥ convergence year`, yet `inv_cost_converge` is the region-specific
base-year cost (5 vs 7), not a region-independent value — the claim's
universal statement fails at this concrete input. -/
theorem c3_converge_counterexample :
    ¬ (∀ r1 ∈ project_adjusted_inv_costs
          [⟨"SSP2", "coal_ppl", "steam_coal", 2020, 100⟩]
          [⟨"Review (2023)", "SSP2", "steam_coal", "R11_NAM", 2020, 1⟩,
           ⟨"Review (2023)", "SSP2", "steam_coal", "R11_WEU", 2020, 2⟩]
          [⟨"inv_cost", "coal_ppl", "steam_coal", "United States", "R11_NAM", 5, 1, 0⟩,
           ⟨"inv_cost", "coal_ppl", "steam_coal", "Europe", "R11_WEU", 7, 2, 0⟩]
          2020,
        ∀ r2 ∈ project_adjusted_inv_costs
          [⟨"SSP2", "coal_ppl", "steam_coal", 2020, 100⟩]
          [⟨"Review (2023)", "SSP2", "steam_coal", "R11_NAM", 2020, 1⟩,
           ⟨"Review (2023)", "SSP2", "steam_coal", "R11_WEU", 2020, 2⟩]
          [⟨"inv_cost", "coal_ppl", "steam_coal", "United States", "R11_NAM", 5, 1, 0⟩,
           ⟨"inv_cost", "coal_ppl", "steam_coal", "Europe", "R11_WEU", 7, 2, 0⟩]
          2020,
        r1.scenario' = r2.scenario' → r1.message_technology = r2.message_technology →
        r1.year = r2.year → (2020 : Int) ≤ r1.year →
        r1.inv_cost_converge = r2.inv_cost_converge) := by
  decide

/-- Claim C3 (amended): in the converging investment-cost series, for every
fixed (scenario, technology, year) with year at least the configured
convergence year AND year strictly beyond the first model year (2020), the
cost value is identical across all regions — it equals the unadjusted
learning-curve value. (The amendment adds the `year > 2020` proviso: for
`year ≤ 2020` every series is pinned to the region-specific base-year cost,
so a convergence year not larger than 2020 falsifies the original wording.)
Uniqueness of the learning value per (scenario, WEO technology, year) and a
functional technology mapping are assumed of the input tables. -/
theorem c3_converge_uniform_after_convergence
    (nam : List NamRow) (adj : List AdjRatioRow) (rd : List RegDiffRow)
    (conv : Int)
    (hmap : ∀ d1 ∈ rd, ∀ d2 ∈ rd, d1.message_technology = d2.message_technology →
      d1.weo_technology = d2.weo_technology)
    (hnam : ∀ n1 ∈ nam, ∀ n2 ∈ nam, n1.scenario' = n2.scenario' →
      n1.weo_technology = n2.weo_technology → n1.year = n2.year →
      n1.inv_cost_learning_NAM = n2.inv_cost_learning_NAM) :
    ∀ r1 ∈ project_adjusted_inv_costs nam adj rd conv,
      ∀ r2 ∈ project_adjusted_inv_costs nam adj rd conv,
      r1.scenario' = r2.scenario' → r1.message_technology = r2.message_technology →
      r1.year = r2.year → conv ≤ r1.year → FIRST_MODEL_YEAR < r1.year →
      r1.inv_cost_converge = r2.inv_cost_converge := by
  intro r1 hr1 r2 hr2 hsc hmsg hyear hconv h2020
  simp only [project_adjusted_inv_costs, List.mem_flatMap, List.mem_map,
    List.mem_filter, decide_eq_true_eq] at hr1 hr2
  obtain ⟨n1, hn1, a1, ⟨ha1, ha1s, ha1w, ha1y⟩, d1, ⟨⟨⟨hd1, hd1inv⟩, hd1m, hd1w, hd1r⟩, hrw1⟩⟩ := hr1
  obtain ⟨n2, hn2, a2, ⟨ha2, ha2s, ha2w, ha2y⟩, d2, ⟨⟨⟨hd2, hd2inv⟩, hd2m, hd2w, hd2r⟩, hrw2⟩⟩ := hr2
  subst hrw1
  subst hrw2
  have hsc' : n1.scenario' = n2.scenario' := hsc
  have hmsg' : n1.message_technology = n2.message_technology := hmsg
  have hyear' : n1.year = n2.year := hyear
  have hweo : n1.weo_technology = n2.weo_technology := by
    have h12 : d1.message_technology = d2.message_technology := by
      rw [hd1m, hd2m, hmsg']
    rw [← hd1w, ← hd2w]
    exact hmap d1 hd1 d2 hd2 h12
  have hlearn : n1.inv_cost_learning_NAM = n2.inv_cost_learning_NAM :=
    hnam n1 hn1 n2 hn2 hsc' hweo hyear'
  have hy1 : ¬ (n1.year ≤ FIRST_MODEL_YEAR) := not_le.mpr h2020
  have hc1 : ¬ (n1.year < conv) := not_lt.mpr hconv
  have hy2 : ¬ (n2.year ≤ FIRST_MODEL_YEAR) := by rw [← hyear']; exact hy1
  have hc2 : ¬ (n2.year < conv) := by rw [← hyear']; exact hc1
  show (if n1.year ≤ FIRST_MODEL_YEAR then d1.cost_region_2021
    else if n1.year < conv then n1.inv_cost_learning_NAM * d1.cost_ratio'
    else n1.inv_cost_learning_NAM) =
    (if n2.year ≤ FIRST_MODEL_YEAR then d2.cost_region_2021
    else if n2.year < conv then n2.inv_cost_learning_NAM * d2.cost_ratio'
    else n2.inv_cost_learning_NAM)
  rw [if_neg hy1, if_neg hc1, if_neg hy2, if_neg hc2]
  exact hlearn

/-- Witness for the amended claim C3: convergence year 2050, year 2060; the
two regional rows of the concrete output carry the same converged cost (the
unadjusted learning value 100). -/
theorem c3_converge_uniform_after_convergence_witness :
    ((⟨"Review (2023)", "SSP2", "coal_ppl", "steam_coal", "R11_NAM", 2060,
        100 * 1, 100 * 2, 100⟩ : ProjCostRow) ∈ project_adjusted_inv_costs
          [⟨"SSP2", "coal_ppl", "steam_coal", 2060, 100⟩]
          [⟨"Review (2023)", "SSP2", "steam_coal", "R11_NAM", 2060, 2⟩,
           ⟨"Review (2023)", "SSP2", "steam_coal", "R11_WEU", 2060, 3⟩]
          [⟨"inv_cost", "coal_ppl", "steam_coal", "United States", "R11_NAM", 5, 1, 0⟩,
           ⟨"inv_cost", "coal_ppl", "steam_coal", "Europe", "R11_WEU", 7, 2, 0⟩]
          2050) ∧
    ((⟨"Review (2023)", "SSP2", "coal_ppl", "steam_coal", "R11_WEU", 2060,
        100 * 2, 100 * 3, 100⟩ : ProjCostRow) ∈ project_adjusted_inv_costs
          [⟨"SSP2", "coal_ppl", "steam_coal", 2060, 100⟩]
          [⟨"Review (2023)", "SSP2", "steam_coal", "R11_NAM", 2060, 2⟩,
           ⟨"Review (2023)", "SSP2", "steam_coal", "R11_WEU", 2060, 3⟩]
          [⟨"inv_cost", "coal_ppl", "steam_coal", "United States", "R11_NAM", 5, 1, 0⟩,
           ⟨"inv_cost", "coal_ppl", "steam_coal", "Europe", "R11_WEU", 7, 2, 0⟩]
          2050) ∧
    ((2050 : Int) ≤ 2060) ∧ (FIRST_MODEL_YEAR < 2060) ∧
    (⟨"Review (2023)", "SSP2", "coal_ppl", "steam_coal", "R11_NAM", 2060,
        100 * 1, 100 * 2, 100⟩ : ProjCostRow).inv_cost_converge =
      (⟨"Review (2023)", "SSP2", "coal_ppl", "steam_coal", "R11_WEU", 2060,
        100 * 2, 100 * 3, 100⟩ : ProjCostRow).inv_cost_converge := by
  refine ⟨List.mem_cons_self _ _, List.mem_cons_of_mem _ (List.mem_cons_self _ _),
    by decide, by decide, ?_⟩
  exact c3_converge_uniform_after_convergence
    [⟨"SSP2", "coal_ppl", "steam_coal", 2060, 100⟩]
    [⟨"Review (2023)", "SSP2", "steam_coal", "R11_NAM", 2060, 2⟩,
     ⟨"Review (2023)", "SSP2", "steam_coal", "R11_WEU", 2060, 3⟩]
    [⟨"inv_cost", "coal_ppl", "steam_coal", "United States", "R11_NAM", 5, 1, 0⟩,
     ⟨"inv_cost", "coal_ppl", "steam_coal", "Europe", "R11_WEU", 7, 2, 0⟩]
    2050 (by decide) (by decide)
    ⟨"Review (2023)", "SSP2", "coal_ppl", "steam_coal", "R11_NAM", 2060,
      100 * 1, 100 * 2, 100⟩
    (List.mem_cons_self _ _)
    ⟨"Review (2023)", "SSP2", "coal_ppl", "steam_coal", "R11_WEU", 2060,
      100 * 2, 100 * 3, 100⟩
    (List.mem_cons_of_mem _ (List.mem_cons_self _ _))
    rfl rfl rfl (by decide) (by decide)

/-! ## Claim C6 -/

/-- Counterexample to claim C6 as stated: for the invalid region-set
identifier "R99" (with an explicit reference region present in the data),
`process_raw_ssp_data` does not fail with a `ConfigurationError` — the node
check only prints a message, and the computation continues and produces a
result table. -/
theorem c6_invalid_node_counterexample :
    (str_upper "R99" ∉ (["R11", "R12", "R20"] : List String)) ∧
    ∃ t, (process_raw_ssp_data "R99" (some "R11_NAM")
      [⟨"Review (2023)", "SSP2", "R11_NAM", "USA", 2020, 200, 100⟩]).2 =
        Except.ok (some t) :=
  ⟨by decide, ⟨_, rfl⟩⟩

/-- Claim C6 (amended): for a region-set identifier outside {R11, R12, R20}
(and an explicitly supplied reference region), `process_raw_ssp_data` prints
the invalid-region message and otherwise continues exactly as it would for a
valid identifier — no `ConfigurationError` (nor any exception) is raised by
the node check. -/
theorem c6_invalid_node_warns_and_continues (input_node r : String)
    (rows : List SspRow)
    (h : str_upper input_node ∉ (["R11", "R12", "R20"] : List String)) :
    (process_raw_ssp_data input_node (some r) rows).1 =
      invalid_node_msg :: (process_raw_ssp_data "R12" (some r) rows).1 ∧
    (process_raw_ssp_data input_node (some r) rows).2 =
      (process_raw_ssp_data "R12" (some r) rows).2 := by
  have hR12 : str_upper "R12" ∈ (["R11", "R12", "R20"] : List String) := by decide
  simp only [process_raw_ssp_data, if_neg h, if_pos hR12]
  by_cases hm : str_upper r ∈ (aggregate_ssp rows).map (fun t => t.region)
  · rw [if_pos hm, if_pos hm]
    exact ⟨rfl, rfl⟩
  · rw [if_neg hm, if_neg hm]
    exact ⟨rfl, rfl⟩

/-- Witness for the amended claim C6 at the invalid identifier "R99". -/
theorem c6_invalid_node_warns_and_continues_witness :
    (str_upper "R99" ∉ (["R11", "R12", "R20"] : List String)) ∧
    (process_raw_ssp_data "R99" (some "R11_NAM")
        [⟨"Review (2023)", "SSP2", "R11_NAM", "USA", 2020, 200, 100⟩]).1 =
      invalid_node_msg :: (process_raw_ssp_data "R12" (some "R11_NAM")
        [⟨"Review (2023)", "SSP2", "R11_NAM", "USA", 2020, 200, 100⟩]).1 ∧
    (process_raw_ssp_data "R99" (some "R11_NAM")
        [⟨"Review (2023)", "SSP2", "R11_NAM", "USA", 2020, 200, 100⟩]).2 =
      (process_raw_ssp_data "R12" (some "R11_NAM")
        [⟨"Review (2023)", "SSP2", "R11_NAM", "USA", 2020, 200, 100⟩]).2 :=
  ⟨by decide,
    (c6_invalid_node_warns_and_continues "R99" "R11_NAM"
      [⟨"Review (2023)", "SSP2", "R11_NAM", "USA", 2020, 200, 100⟩] (by decide)).1,
    (c6_invalid_node_warns_and_continues "R99" "R11_NAM"
      [⟨"Review (2023)", "SSP2", "R11_NAM", "USA", 2020, 200, 100⟩] (by decide)).2⟩

/-! ## Claim C10 -/

/-- Claim C10: when the upper-cased reference region is not among the regions
of the aggregated GDP data, `process_raw_ssp_data` returns `None` (embedded
as `Except.ok none`): no exception is raised and no table is produced — the
function prints a message and falls off the end without a `return`. -/
theorem c10_missing_ref_region_returns_none (input_node r : String)
    (rows : List SspRow)
    (h : str_upper r ∉ (aggregate_ssp rows).map (fun t => t.region)) :
    (process_raw_ssp_data input_node (some r) rows).2 = Except.ok none := by
  simp only [process_raw_ssp_data, if_neg h]

/-- Witness for claim C10: reference region `R11_LAM` is absent from the
aggregated data, so the result is `None`. -/
theorem c10_missing_ref_region_returns_none_witness :
    (str_upper "R11_LAM" ∉ (aggregate_ssp
      [⟨"Review (2023)", "SSP2", "R11_NAM", "USA", 2020, 200, 100⟩]).map
        (fun t => t.region)) ∧
    (process_raw_ssp_data "R11" (some "R11_LAM")
      [⟨"Review (2023)", "SSP2", "R11_NAM", "USA", 2020, 200, 100⟩]).2 =
        Except.ok none :=
  ⟨by decide, c10_missing_ref_region_returns_none "R11" "R11_LAM"
    [⟨"Review (2023)", "SSP2", "R11_NAM", "USA", 2020, 200, 100⟩] (by decide)⟩

/-! ## Claim C8 -/

/-- Claim C8: for technologies whose mapping specifies no differentiation
source, the no-source branch produces exactly one row per known region (the
unique regions of the Intratec output, assumed to coincide with the
configured node list) with `reg_cost_ratio = 1`, and every row it produces
carries ratio 1. -/
theorem c8_no_source_flat_ratio (df_map : List TechMapRow)
    (df_intratec : List IntratecRatioRow) (node_list : List String)
    (hreg : un_reg df_map df_intratec = node_list.map (fun x => some x))
    (hne : node_list ≠ []) :
    apply_regional_differentiation_none df_map df_intratec =
      (df_map.filter (fun m => m.reg_diff_source = none)).flatMap (fun m =>
        node_list.map (fun reg =>
          ⟨m.message_technology, m.reg_diff_source, m.reg_diff_technology,
            some reg, m.base_year_reference_region_cost, some 1,
            some (m.fix_ratio'.getD 0)⟩)) ∧
    ∀ row ∈ apply_regional_differentiation_none df_map df_intratec,
      row.reg_cost_ratio' = some 1 := by
  have hmain : apply_regional_differentiation_none df_map df_intratec =
      (df_map.filter (fun m => m.reg_diff_source = none)).flatMap (fun m =>
        node_list.map (fun reg =>
          (⟨m.message_technology, m.reg_diff_source, m.reg_diff_technology,
            some reg, m.base_year_reference_region_cost, some 1,
            some (m.fix_ratio'.getD 0)⟩ : RegDiffOutRow))) := by
    unfold apply_regional_differentiation_none filt_none
    rw [hreg]
    have hempty : (node_list.map (fun x => some x)).isEmpty = false := by
      cases node_list with
      | nil => exact absurd rfl hne
      | cons x xs => rfl
    refine congrArg _ (funext fun m => ?_)
    rw [hempty]
    simp only [Bool.false_eq_true, if_false, List.map_map]
    rfl
  constructor
  · exact hmain
  · intro row hrow
    rw [hmain] at hrow
    simp only [List.mem_flatMap, List.mem_map] at hrow
    obtain ⟨m, _, reg, _, hrw⟩ := hrow
    rw [← hrw]

/-- Witness for claim C8: one no-source technology and one Intratec
technology over the two regions `R11_NAM`, `R11_WEU`; the amended statement's
hypotheses hold and every no-source row carries ratio 1. -/
theorem c8_no_source_flat_ratio_witness :
    (un_reg [⟨"mtech", none, none, some 10, none⟩,
        ⟨"itech", some "intratec", some "all", none, some 2⟩]
      [⟨"all", "R11_NAM", 100, 1⟩, ⟨"all", "R11_WEU", 100, 2⟩] =
      (["R11_NAM", "R11_WEU"] : List String).map (fun x => some x)) ∧
    ((["R11_NAM", "R11_WEU"] : List String) ≠ []) ∧
    ∀ row ∈ apply_regional_differentiation_none
      [⟨"mtech", none, none, some 10, none⟩,
       ⟨"itech", some "intratec", some "all", none, some 2⟩]
      [⟨"all", "R11_NAM", 100, 1⟩, ⟨"all", "R11_WEU", 100, 2⟩],
      row.reg_cost_ratio' = some 1 :=
  ⟨by decide, by decide,
    (c8_no_source_flat_ratio
      [⟨"mtech", none, none, some 10, none⟩,
       ⟨"itech", some "intratec", some "all", none, some 2⟩]
      [⟨"all", "R11_NAM", 100, 1⟩, ⟨"all", "R11_WEU", 100, 2⟩]
      ["R11_NAM", "R11_WEU"] (by decide) (by decide)).2⟩
